import Mathlib

/-!
Verification of the request-validation middleware of the password-generator
service (file src/error.js): the functions validatePasswordRequest,
validateBatchRequest, validateStrengthRequest and validatePassphraseRequest.

The middleware inspects req.body, a JSON object produced by express.json().
A JSON field value is one of: a number, a string, a boolean, null, or a
nested array/object.  The validators apply only typeof, truthiness, strict
comparison against boolean literals, numeric comparison and length to field
values, so nested arrays and objects — which all have typeof object and are
truthy — are represented by a single opaque constructor vObjLike.  JSON
numbers are represented as rationals; express.json() cannot deliver NaN or
infinities, so rationals cover every number a request body can hold.
An absent field reads as undefined, modelled by Option: none is undefined.
-/

/-- A JSON value as delivered by express.json() into req.body. -/
inductive JSValue where
  | vNum  (q : Rat)
  | vStr  (s : String)
  | vBool (b : Bool)
  | vNull
  | vObjLike
  deriving DecidableEq

/-- The JavaScript typeof operator on a JSON value: typeof null is the
string object, and arrays and objects are both object. -/
def JSValue.typeofV : JSValue → String
  | vNum _  => "number"
  | vStr _  => "string"
  | vBool _ => "boolean"
  | vNull   => "object"
  | vObjLike => "object"

/-- The JavaScript truthiness of a JSON value: zero, the empty string,
null and false are falsy; every other JSON value is truthy. -/
def JSValue.truthy : JSValue → Bool
  | vNum q  => decide (q ≠ 0)
  | vStr s  => decide (s ≠ "")
  | vBool b => b
  | vNull   => false
  | vObjLike => true

/-- A request body: a JSON object, as a list of field/value pairs. -/
structure Body where
  fields : List (String × JSValue)
  deriving DecidableEq

/-- Property access on req.body at key k: none models undefined. -/
def Body.get (b : Body) (k : String) : Option JSValue :=
  (b.fields.find? (fun p => p.1 == k)).map Prod.snd

/-- The observable outcome of one validation middleware: either a JSON
error response with an HTTP status, or a call to next(). -/
inductive VResult where
  | reject (status : Nat) (error : String)
  | accept
  deriving DecidableEq

/-- Numeric comparison v < q, reached in the source only behind a typeof
number short-circuit guard, hence false on non-numbers here. -/
def numLt (v : JSValue) (q : Rat) : Bool :=
  match v with
  | .vNum n => decide (n < q)
  | _ => false

/-- Numeric comparison v > q, reached in the source only behind a typeof
number short-circuit guard. -/
def numGt (v : JSValue) (q : Rat) : Bool :=
  match v with
  | .vNum n => decide (q < n)
  | _ => false

/-- The shared shape of the length, count and wordCount range checks in
src/error.js: typeof v is not number, or v < lo, or v > hi. -/
def badRange (v : JSValue) (lo hi : Rat) : Bool :=
  (v.typeofV != "number") || numLt v lo || numGt v hi

/-- The guard pattern of src/error.js for optional numeric fields: the
field is not undefined and its range check fails. -/
def definedAndBadRange (o : Option JSValue) (lo hi : Rat) : Bool :=
  match o with
  | some v => badRange v lo hi
  | none => false

/-- The booleanFields array of validatePasswordRequest,
src/error.js line 98. -/
def booleanFields : List String :=
  ["includeUpper", "includeLower", "includeNumbers", "includeSymbols", "excludeSimilar"]

/-- The loop over booleanFields in validatePasswordRequest, src/error.js
lines 99 to 106: the first field of fs that is defined on b with a
non-boolean value, or none when the loop falls through. -/
def firstBadBool (b : Body) : List String → Option String
  | [] => none
  | f :: rest =>
    match b.get f with
    | some v => if v.typeofV != "boolean" then some f else firstBadBool b rest
    | none => firstBadBool b rest

/-- The hasAtLeastOneType expression of src/error.js lines 109 to 113:
includeUpper strictly differs from false, or includeLower strictly differs
from false, or includeNumbers strictly differs from false, or
includeSymbols strictly equals true.  Strict (in)equality against a boolean
literal compares value and type, so it is (in)equality with some vBool. -/
def hasAtLeastOneType (b : Body) : Bool :=
  decide (b.get "includeUpper" ≠ some (JSValue.vBool false)) ||
  decide (b.get "includeLower" ≠ some (JSValue.vBool false)) ||
  decide (b.get "includeNumbers" ≠ some (JSValue.vBool false)) ||
  decide (b.get "includeSymbols" = some (JSValue.vBool true))

/-- Lines 97 to 122 of validatePasswordRequest: the boolean-flag loop,
then the hasAtLeastOneType check, then next(). -/
def passwordFlagPhase (b : Body) : VResult :=
  match firstBadBool b booleanFields with
  | some f => VResult.reject 400 (f ++ " must be a boolean value")
  | none =>
    if hasAtLeastOneType b then VResult.accept
    else VResult.reject 400 "At least one character type must be selected"

/-- The middleware validatePasswordRequest, src/error.js lines 84 to 123:
length range check, boolean-flag type loop, at-least-one-category check,
in that order. -/
def validatePasswordRequest (b : Body) : VResult :=
  if definedAndBadRange (b.get "length") 4 128 then
    VResult.reject 400 "Length must be a number between 4 and 128"
  else passwordFlagPhase b

/-- The middleware validateBatchRequest, src/error.js lines 126 to 140:
count range check, then a tail call to validatePasswordRequest on the same
request. -/
def validateBatchRequest (b : Body) : VResult :=
  if definedAndBadRange (b.get "count") 1 20 then
    VResult.reject 400 "Count must be a number between 1 and 20"
  else validatePasswordRequest b

/-- The middleware validateStrengthRequest, src/error.js lines 143 to 175:
falsiness of password, then typeof password not string, then password
length zero, then password length above 1000, then next(). -/
def validateStrengthRequest (b : Body) : VResult :=
  match b.get "password" with
  | none => VResult.reject 400 "Password is required"
  | some v =>
    if v.truthy = false then VResult.reject 400 "Password is required"
    else match v with
      | .vStr s =>
        if s.length = 0 then VResult.reject 400 "Password cannot be empty"
        else if 1000 < s.length then
          VResult.reject 400 "Password too long for analysis (max 1000 characters)"
        else VResult.accept
      | _ => VResult.reject 400 "Password must be a string"

/-- The separator test of src/error.js line 191: typeof separator is not
string, or separator length exceeds five. -/
def badSeparator (v : JSValue) : Bool :=
  match v with
  | .vStr s => decide (5 < s.length)
  | _ => true

/-- The guarded separator check of src/error.js lines 190 to 197. -/
def definedAndBadSep (o : Option JSValue) : Bool :=
  match o with
  | some v => badSeparator v
  | none => false

/-- The middleware validatePassphraseRequest, src/error.js lines 178 to
200: wordCount range check, then separator check, then next(). -/
def validatePassphraseRequest (b : Body) : VResult :=
  if definedAndBadRange (b.get "wordCount") 2 10 then
    VResult.reject 400 "Word count must be a number between 2 and 10"
  else if definedAndBadSep (b.get "separator") then
    VResult.reject 400 "Separator must be a string with maximum 5 characters"
  else VResult.accept

/-- An Express request, as far as the validators can observe it: its body.
None of the four validators assigns to req or req.body — they only
destructure and read — so the state effect of each middleware is the
identity, recorded by the request-transformer wrappers below. -/
structure Req where
  body : Body
  deriving DecidableEq

/-- The middleware validatePasswordRequest as a request transformer: the
decision plus the request forwarded to next().  The source performs no
assignment to req.body, so the forwarded request is the received one. -/
def validatePasswordRequestM (req : Req) : VResult × Req :=
  (validatePasswordRequest req.body, req)

/-- The middleware validateBatchRequest as a request transformer. -/
def validateBatchRequestM (req : Req) : VResult × Req :=
  (validateBatchRequest req.body, req)

/-- The middleware validateStrengthRequest as a request transformer. -/
def validateStrengthRequestM (req : Req) : VResult × Req :=
  (validateStrengthRequest req.body, req)

/-- The middleware validatePassphraseRequest as a request transformer. -/
def validatePassphraseRequestM (req : Req) : VResult × Req :=
  (validatePassphraseRequest req.body, req)

/-- A body with no fields. -/
def emptyBody : Body := ⟨[]⟩

/-- A body whose three inclusion flags are explicitly false, whose
includeSymbols is absent, and whose excludeSimilar flag is a string. -/
def noTypesBadFlagBody : Body :=
  ⟨[("includeUpper", JSValue.vBool false), ("includeLower", JSValue.vBool false),
    ("includeNumbers", JSValue.vBool false), ("excludeSimilar", JSValue.vStr "yes")]⟩

/-- A body whose separator is the empty string. -/
def emptySeparatorBody : Body := ⟨[("separator", JSValue.vStr "")]⟩

/-- A body whose length is the number three, below the minimum of four. -/
def lengthThreeBody : Body := ⟨[("length", JSValue.vNum 3)]⟩

/-- A body whose only field is a non-boolean includeUpper flag. -/
def badFlagOnlyBody : Body := ⟨[("includeUpper", JSValue.vStr "yes")]⟩

/-- A body with an out-of-range length and a non-boolean includeUpper. -/
def lengthAndFlagBody : Body :=
  ⟨[("length", JSValue.vNum 3), ("includeUpper", JSValue.vStr "yes")]⟩

theorem badRange_eq_true_iff (v : JSValue) (lo hi : Rat) :
    badRange v lo hi = true ↔ ∀ q : Rat, v = JSValue.vNum q → q < lo ∨ hi < q := by
  cases v <;> simp [badRange, JSValue.typeofV, numLt, numGt]

theorem badRange_eq_false_iff (v : JSValue) (lo hi : Rat) :
    badRange v lo hi = false ↔ ∃ q : Rat, v = JSValue.vNum q ∧ lo ≤ q ∧ q ≤ hi := by
  cases v <;> simp [badRange, JSValue.typeofV, numLt, numGt]

theorem definedAndBadRange_eq_false_iff (o : Option JSValue) (lo hi : Rat) :
    definedAndBadRange o lo hi = false ↔
      ∀ v, o = some v → ∃ q : Rat, v = JSValue.vNum q ∧ lo ≤ q ∧ q ≤ hi := by
  cases o with
  | none => simp [definedAndBadRange]
  | some v => simp [definedAndBadRange, badRange_eq_false_iff]

theorem firstBadBool_eq_none_iff (b : Body) (fs : List String) :
    firstBadBool b fs = none ↔
      ∀ f ∈ fs, ∀ v, b.get f = some v → v.typeofV = "boolean" := by
  induction fs with
  | nil => simp [firstBadBool]
  | cons f rest ih =>
    cases h : b.get f with
    | none => simp [firstBadBool, h, ih]
    | some v =>
      by_cases ht : v.typeofV = "boolean"
      · simp [firstBadBool, h, ht, ih]
      · simp [firstBadBool, h, ht]

theorem firstBadBool_mem_bad (b : Body) (fs : List String) (f : String)
    (h : firstBadBool b fs = some f) :
    f ∈ fs ∧ ∃ v, b.get f = some v ∧ v.typeofV ≠ "boolean" := by
  induction fs with
  | nil => simp [firstBadBool] at h
  | cons g rest ih =>
    rw [firstBadBool] at h
    cases hg : b.get g with
    | none =>
      rw [hg] at h
      have := ih h
      exact ⟨List.mem_cons_of_mem _ this.1, this.2⟩
    | some v =>
      rw [hg] at h
      by_cases ht : v.typeofV = "boolean"
      · simp [ht] at h
        have := ih h
        exact ⟨List.mem_cons_of_mem _ this.1, this.2⟩
      · simp [ht] at h
        subst h
        exact ⟨List.mem_cons_self _ _, v, hg, ht⟩

theorem hasAtLeastOneType_eq_false_iff (b : Body) :
    hasAtLeastOneType b = false ↔
      (b.get "includeUpper" = some (JSValue.vBool false) ∧
       b.get "includeLower" = some (JSValue.vBool false) ∧
       b.get "includeNumbers" = some (JSValue.vBool false) ∧
       b.get "includeSymbols" ≠ some (JSValue.vBool true)) := by
  simp [hasAtLeastOneType, and_assoc]

theorem string_length_eq_zero_iff (s : String) : s.length = 0 ↔ s = "" := by
  constructor
  · intro h0
    cases s with
    | mk data =>
      cases data with
      | nil => rfl
      | cons c cs => simp [String.length] at h0
  · intro h
    subst h
    rfl

theorem mem_booleanFields_iff (f : String) :
    f ∈ booleanFields ↔
      f = "includeUpper" ∨ f = "includeLower" ∨ f = "includeNumbers" ∨
      f = "includeSymbols" ∨ f = "excludeSimilar" := by
  simp [booleanFields]

theorem flagError_ne (f : String) (hf : f ∈ booleanFields) (e : String)
    (he : e = "Length must be a number between 4 and 128" ∨
          e = "Count must be a number between 1 and 20" ∨
          e = "At least one character type must be selected" ∨
          e = "Word count must be a number between 2 and 10" ∨
          e = "Separator must be a string with maximum 5 characters") :
    f ++ " must be a boolean value" ≠ e := by
  rw [mem_booleanFields_iff] at hf
  rcases hf with rfl | rfl | rfl | rfl | rfl <;>
    rcases he with rfl | rfl | rfl | rfl | rfl <;> decide

theorem passwordFlagPhase_cases (b : Body) :
    passwordFlagPhase b = VResult.accept ∨
    (∃ f ∈ booleanFields,
      passwordFlagPhase b = VResult.reject 400 (f ++ " must be a boolean value")) ∨
    passwordFlagPhase b = VResult.reject 400 "At least one character type must be selected" := by
  unfold passwordFlagPhase
  cases h : firstBadBool b booleanFields with
  | some f => exact Or.inr (Or.inl ⟨f, (firstBadBool_mem_bad b _ f h).1, rfl⟩)
  | none =>
    by_cases hh : hasAtLeastOneType b
    · simp [hh]
    · simp [hh]

theorem validatePasswordRequest_cases (b : Body) :
    validatePasswordRequest b = VResult.accept ∨
    validatePasswordRequest b = VResult.reject 400 "Length must be a number between 4 and 128" ∨
    (∃ f ∈ booleanFields,
      validatePasswordRequest b = VResult.reject 400 (f ++ " must be a boolean value")) ∨
    validatePasswordRequest b = VResult.reject 400 "At least one character type must be selected" := by
  unfold validatePasswordRequest
  by_cases hl : definedAndBadRange (b.get "length") 4 128
  · simp [hl]
  · simp only [hl, Bool.false_eq_true, if_false]
    rcases passwordFlagPhase_cases b with h | h | h
    · exact Or.inl h
    · rcases h with ⟨f, hf, hfe⟩
      exact Or.inr (Or.inr (Or.inl ⟨f, hf, hfe⟩))
    · exact Or.inr (Or.inr (Or.inr h))

theorem passwordFlagPhase_ne_fixed (b : Body) (e : String)
    (he : e = "Length must be a number between 4 and 128" ∨
          e = "Count must be a number between 1 and 20" ∨
          e = "Word count must be a number between 2 and 10" ∨
          e = "Separator must be a string with maximum 5 characters") :
    passwordFlagPhase b ≠ VResult.reject 400 e := by
  have hne : "At least one character type must be selected" ≠ e := by
    rcases he with rfl | rfl | rfl | rfl <;> decide
  rcases passwordFlagPhase_cases b with h | ⟨f, hf, h⟩ | h <;> rw [h]
  · intro hc; exact VResult.noConfusion hc
  · intro hc
    exact flagError_ne f hf e (by tauto) (VResult.reject.inj hc).2
  · intro hc
    exact hne (VResult.reject.inj hc).2

theorem validatePasswordRequest_ne_fixed (b : Body) (e : String)
    (he : e = "Count must be a number between 1 and 20" ∨
          e = "Word count must be a number between 2 and 10" ∨
          e = "Separator must be a string with maximum 5 characters") :
    validatePasswordRequest b ≠ VResult.reject 400 e := by
  unfold validatePasswordRequest
  by_cases hl : definedAndBadRange (b.get "length") 4 128
  · simp only [hl, if_true]
    intro hc
    have : "Length must be a number between 4 and 128" = e := (VResult.reject.inj hc).2
    rcases he with rfl | rfl | rfl <;> exact absurd this (by decide)
  · simp only [hl, Bool.false_eq_true, if_false]
    exact passwordFlagPhase_ne_fixed b e (by tauto)

theorem definedAndBadSep_eq_false_iff (o : Option JSValue) :
    definedAndBadSep o = false ↔
      ∀ v, o = some v → ∃ s, v = JSValue.vStr s ∧ s.length ≤ 5 := by
  cases o with
  | none => simp [definedAndBadSep]
  | some v => cases v <;> simp [definedAndBadSep, badSeparator]

/-- C3. For every strength request, validateStrengthRequest rejects with
HTTP 400 any password that is missing, not a string, the empty string, or
longer than 1000 characters, and accepts exactly the string passwords of
length 1 to 1000; every rejection has status 400, and in particular the
empty password is always rejected. -/
theorem strength_accepts_iff (b : Body) :
    (validateStrengthRequest b = VResult.accept ↔
      ∃ s : String, b.get "password" = some (JSValue.vStr s) ∧ 1 ≤ s.length ∧ s.length ≤ 1000) ∧
    (validateStrengthRequest b = VResult.accept ∨
      ∃ e, validateStrengthRequest b = VResult.reject 400 e) := by
  constructor
  · unfold validateStrengthRequest
    cases h : b.get "password" with
    | none => simp
    | some v =>
      cases v with
      | vStr s =>
        by_cases hs : s = ""
        · subst hs
          simp [JSValue.truthy]
        · have hlen : ¬ s.length = 0 := by
            rw [string_length_eq_zero_iff]; exact hs
          by_cases hl : 1000 < s.length
          · simp [JSValue.truthy, hs, hlen, hl]
          · simp [JSValue.truthy, hs, hlen, hl]
            omega
      | vNum q =>
        by_cases hq : q = 0
        · subst hq; simp [JSValue.truthy]
        · simp [JSValue.truthy, hq]
      | vBool bb => cases bb <;> simp [JSValue.truthy]
      | vNull => simp [JSValue.truthy]
      | vObjLike => simp [JSValue.truthy]
  · unfold validateStrengthRequest
    cases h : b.get "password" with
    | none => simp
    | some v =>
      cases v with
      | vStr s =>
        by_cases ht : JSValue.truthy (JSValue.vStr s) = false
        · simp [ht]
        · simp only [ht, Bool.false_eq_true, if_false]
          by_cases h0 : s.length = 0
          · simp [h0]
          · by_cases hl : 1000 < s.length
            · simp [h0, hl]
            · simp [h0, hl]
      | vNum q =>
        by_cases ht : JSValue.truthy (JSValue.vNum q) = false <;> simp [ht]
      | vBool bb => cases bb <;> simp [JSValue.truthy]
      | vNull => simp [JSValue.truthy]
      | vObjLike => simp [JSValue.truthy]

/-- C4. For every request whose body defines length, validatePasswordRequest
rejects with HTTP 400 and the length error exactly when length is not a
number, or below 4, or above 128; equivalently, a numeric length between 4
and 128 passes the length check. -/
theorem length_check_iff (b : Body) (v : JSValue) (h : b.get "length" = some v) :
    validatePasswordRequest b = VResult.reject 400 "Length must be a number between 4 and 128" ↔
      ∀ q : Rat, v = JSValue.vNum q → q < 4 ∨ 128 < q := by
  unfold validatePasswordRequest
  by_cases hl : definedAndBadRange (b.get "length") 4 128
  · rw [if_pos hl]
    rw [h] at hl
    simp only [definedAndBadRange] at hl
    simp only [true_iff, iff_true]
    exact (badRange_eq_true_iff v 4 128).mp hl
  · rw [if_neg hl]
    have hl2 : definedAndBadRange (b.get "length") 4 128 = false :=
      Bool.eq_false_iff.mpr hl
    rw [h] at hl2
    simp only [definedAndBadRange] at hl2
    obtain ⟨q, rfl, h4, h128⟩ := (badRange_eq_false_iff v 4 128).mp hl2
    constructor
    · intro hc
      exact absurd hc (passwordFlagPhase_ne_fixed b _ (Or.inl rfl))
    · intro hq
      rcases hq q rfl with h1 | h1 <;> linarith

/-- C4 witness: a body with length three satisfies the hypothesis of the
length theorem, and the theorem applies to it. -/
theorem length_check_iff_witness :
    lengthThreeBody.get "length" = some (JSValue.vNum 3) ∧
    (validatePasswordRequest lengthThreeBody =
        VResult.reject 400 "Length must be a number between 4 and 128" ↔
      ∀ q : Rat, JSValue.vNum 3 = JSValue.vNum q → q < 4 ∨ 128 < q) :=
  ⟨by decide, length_check_iff lengthThreeBody (JSValue.vNum 3) (by decide)⟩

/-- C5. The middleware validateBatchRequest rejects with HTTP 400 and the
count error exactly when count is defined and not a number, or below 1, or
above 20; and whenever the count check passes, its result is exactly the
result of validatePasswordRequest on the same body. -/
theorem batch_count_iff (b : Body) :
    (validateBatchRequest b = VResult.reject 400 "Count must be a number between 1 and 20" ↔
      ∃ v, b.get "count" = some v ∧ ∀ q : Rat, v = JSValue.vNum q → q < 1 ∨ 20 < q) ∧
    (definedAndBadRange (b.get "count") 1 20 = false →
      validateBatchRequest b = validatePasswordRequest b) := by
  constructor
  · unfold validateBatchRequest
    by_cases hc : definedAndBadRange (b.get "count") 1 20
    · rw [if_pos hc]
      simp only [true_iff, iff_true]
      cases hv : b.get "count" with
      | none => rw [hv] at hc; simp [definedAndBadRange] at hc
      | some v =>
        rw [hv] at hc
        simp only [definedAndBadRange] at hc
        exact ⟨v, rfl, (badRange_eq_true_iff v 1 20).mp hc⟩
    · rw [if_neg hc]
      have hc2 : definedAndBadRange (b.get "count") 1 20 = false :=
        Bool.eq_false_iff.mpr hc
      constructor
      · intro hcon
        exact absurd hcon (validatePasswordRequest_ne_fixed b _ (Or.inl rfl))
      · rintro ⟨v, hv, hq⟩
        rw [hv] at hc2
        simp only [definedAndBadRange] at hc2
        obtain ⟨q, rfl, h1, h20⟩ := (badRange_eq_false_iff v 1 20).mp hc2
        rcases hq q rfl with h2 | h2 <;> linarith
  · intro hc
    unfold validateBatchRequest
    rw [hc]
    simp

/-- C5 witness: on the empty body the count check passes and the batch
validator agrees with the password validator. -/
theorem batch_count_iff_witness :
    definedAndBadRange (emptyBody.get "count") 1 20 = false ∧
    validateBatchRequest emptyBody = validatePasswordRequest emptyBody :=
  ⟨by decide, (batch_count_iff emptyBody).2 (by decide)⟩

/-- C6. The middleware validatePassphraseRequest accepts exactly when a
defined wordCount is a number between 2 and 10 and a defined separator is a
string of at most 5 characters; it rejects exactly when some defined field
violates its constraint. -/
theorem passphrase_accept_iff (b : Body) :
    validatePassphraseRequest b = VResult.accept ↔
      ((∀ v, b.get "wordCount" = some v →
          ∃ q : Rat, v = JSValue.vNum q ∧ 2 ≤ q ∧ q ≤ 10) ∧
       (∀ v, b.get "separator" = some v →
          ∃ s, v = JSValue.vStr s ∧ s.length ≤ 5)) := by
  unfold validatePassphraseRequest
  by_cases h1 : definedAndBadRange (b.get "wordCount") 2 10
  · rw [if_pos h1]
    constructor
    · intro hc; exact VResult.noConfusion hc
    · rintro ⟨hw, -⟩
      have : definedAndBadRange (b.get "wordCount") 2 10 = false :=
        (definedAndBadRange_eq_false_iff _ 2 10).mpr hw
      rw [this] at h1
      exact Bool.noConfusion h1
  · rw [if_neg h1]
    have h1f : definedAndBadRange (b.get "wordCount") 2 10 = false :=
      Bool.eq_false_iff.mpr h1
    by_cases h2 : definedAndBadSep (b.get "separator")
    · rw [if_pos h2]
      constructor
      · intro hc; exact VResult.noConfusion hc
      · rintro ⟨-, hs⟩
        have : definedAndBadSep (b.get "separator") = false :=
          (definedAndBadSep_eq_false_iff _).mpr hs
        rw [this] at h2
        exact Bool.noConfusion h2
    · rw [if_neg h2]
      have h2f : definedAndBadSep (b.get "separator") = false :=
        Bool.eq_false_iff.mpr h2
      simp only [true_iff]
      exact ⟨(definedAndBadRange_eq_false_iff _ 2 10).mp h1f,
             (definedAndBadSep_eq_false_iff _).mp h2f⟩

/-- C1 counterexample. On a body whose three inclusion flags are explicitly
false, whose includeSymbols is not explicitly true, and whose
excludeSimilar flag is a string, the condition of the claim holds and yet
validatePasswordRequest does not reject with the at-least-one-type error:
the boolean-flag check fires first with a different error. -/
theorem atLeastOne_cex :
    noTypesBadFlagBody.get "includeUpper" = some (JSValue.vBool false) ∧
    noTypesBadFlagBody.get "includeLower" = some (JSValue.vBool false) ∧
    noTypesBadFlagBody.get "includeNumbers" = some (JSValue.vBool false) ∧
    noTypesBadFlagBody.get "includeSymbols" ≠ some (JSValue.vBool true) ∧
    validatePasswordRequest noTypesBadFlagBody ≠
      VResult.reject 400 "At least one character type must be selected" ∧
    validatePasswordRequest noTypesBadFlagBody =
      VResult.reject 400 "excludeSimilar must be a boolean value" := by
  decide

/-- C1 (amended). The middleware validatePasswordRequest rejects with HTTP
400 and the at-least-one-type error if and only if the length check and the
boolean-flag checks pass and includeUpper, includeLower and includeNumbers
are all explicitly false while includeSymbols is not explicitly true; an
omitted flag counts as selected, an omitted includeSymbols as unselected. -/
theorem atLeastOne_reject_iff (b : Body) :
    validatePasswordRequest b =
        VResult.reject 400 "At least one character type must be selected" ↔
      (definedAndBadRange (b.get "length") 4 128 = false ∧
       firstBadBool b booleanFields = none ∧
       b.get "includeUpper" = some (JSValue.vBool false) ∧
       b.get "includeLower" = some (JSValue.vBool false) ∧
       b.get "includeNumbers" = some (JSValue.vBool false) ∧
       b.get "includeSymbols" ≠ some (JSValue.vBool true)) := by
  unfold validatePasswordRequest
  by_cases hl : definedAndBadRange (b.get "length") 4 128
  · rw [if_pos hl]
    constructor
    · intro hc
      exact absurd (VResult.reject.inj hc).2 (by decide)
    · rintro ⟨h1, -⟩
      rw [h1] at hl
      exact Bool.noConfusion hl
  · rw [if_neg hl]
    have hlf : definedAndBadRange (b.get "length") 4 128 = false :=
      Bool.eq_false_iff.mpr hl
    unfold passwordFlagPhase
    cases hf : firstBadBool b booleanFields with
    | some f =>
      constructor
      · intro hc
        exact absurd (VResult.reject.inj hc).2
          (flagError_ne f (firstBadBool_mem_bad b _ f hf).1 _ (by tauto))
      · rintro ⟨-, h2, -⟩
        exact Option.noConfusion h2
    | none =>
      by_cases hh : hasAtLeastOneType b
      · rw [if_pos hh]
        constructor
        · intro hc; exact VResult.noConfusion hc
        · rintro ⟨-, -, hu, hlw, hn, hs⟩
          have : hasAtLeastOneType b = false :=
            (hasAtLeastOneType_eq_false_iff b).mpr ⟨hu, hlw, hn, hs⟩
          rw [this] at hh
          exact Bool.noConfusion hh
      · rw [if_neg hh]
        have hhf : hasAtLeastOneType b = false := Bool.eq_false_iff.mpr hh
        obtain ⟨hu, hlw, hn, hs⟩ := (hasAtLeastOneType_eq_false_iff b).mp hhf
        simp only [true_iff]
        exact ⟨hlf, trivial, hu, hlw, hn, hs⟩

/-- C7 counterexample. On a body with an out-of-range length and a
non-boolean includeUpper, the middleware rejects with the length error, not
with a flag error, so the claim as stated fails. -/
theorem flag_claim_cex :
    lengthAndFlagBody.get "includeUpper" = some (JSValue.vStr "yes") ∧
    JSValue.typeofV (JSValue.vStr "yes") ≠ "boolean" ∧
    (∀ f ∈ booleanFields,
      validatePasswordRequest lengthAndFlagBody ≠
        VResult.reject 400 (f ++ " must be a boolean value")) ∧
    validatePasswordRequest lengthAndFlagBody =
      VResult.reject 400 "Length must be a number between 4 and 128" := by
  decide

/-- C7 (amended). Whenever the length check passes, validatePasswordRequest
rejects with HTTP 400 and a flag error — the offending field name followed
by the boolean-value message — if and only if some field among the five
boolean flags is present with a non-boolean value; requests whose present
flags are all booleans pass the flag-type check. -/
theorem flag_reject_iff (b : Body)
    (hl : definedAndBadRange (b.get "length") 4 128 = false) :
    (∃ f ∈ booleanFields,
        validatePasswordRequest b =
          VResult.reject 400 (f ++ " must be a boolean value")) ↔
      ∃ f ∈ booleanFields, ∃ v, b.get f = some v ∧ v.typeofV ≠ "boolean" := by
  unfold validatePasswordRequest
  rw [hl]
  simp only [Bool.false_eq_true, if_false]
  unfold passwordFlagPhase
  cases hf : firstBadBool b booleanFields with
  | some f0 =>
    obtain ⟨hmem, v, hv, ht⟩ := firstBadBool_mem_bad b _ f0 hf
    constructor
    · intro _
      exact ⟨f0, hmem, v, hv, ht⟩
    · intro _
      exact ⟨f0, hmem, rfl⟩
  | none =>
    have hall := (firstBadBool_eq_none_iff b booleanFields).mp hf
    constructor
    · rintro ⟨f, hfm, hfe⟩
      by_cases hh : hasAtLeastOneType b
      · rw [if_pos hh] at hfe
        exact absurd hfe (by intro hc; exact VResult.noConfusion hc)
      · rw [if_neg hh] at hfe
        exact absurd (VResult.reject.inj hfe).2.symm (flagError_ne f hfm _ (by tauto))
    · rintro ⟨f, hfm, v, hv, ht⟩
      exact absurd (hall f hfm v hv) ht

/-- C7 witness: a body whose only field is a non-boolean includeUpper
satisfies the length hypothesis, and the amended theorem applies to it. -/
theorem flag_reject_iff_witness :
    definedAndBadRange (badFlagOnlyBody.get "length") 4 128 = false ∧
    ((∃ f ∈ booleanFields,
        validatePasswordRequest badFlagOnlyBody =
          VResult.reject 400 (f ++ " must be a boolean value")) ↔
      ∃ f ∈ booleanFields, ∃ v, badFlagOnlyBody.get f = some v ∧
        v.typeofV ≠ "boolean") :=
  ⟨by decide, flag_reject_iff badFlagOnlyBody (by decide)⟩

/-- C2 counterexample. A request whose separator is the empty string is
accepted by validatePassphraseRequest, contradicting the claim that every
such request is rejected. -/
theorem empty_separator_cex :
    emptySeparatorBody.get "separator" = some (JSValue.vStr "") ∧
    validatePassphraseRequest emptySeparatorBody = VResult.accept := by
  decide

/-- C2 (amended). The middleware validatePassphraseRequest enforces no
lower bound on the separator: a request whose separator is the empty string
is never rejected on account of the separator — it is accepted unless its
wordCount is defined and invalid. -/
theorem empty_separator_not_rejected (b : Body)
    (h : b.get "separator" = some (JSValue.vStr "")) :
    validatePassphraseRequest b = VResult.accept ∨
    validatePassphraseRequest b =
      VResult.reject 400 "Word count must be a number between 2 and 10" := by
  unfold validatePassphraseRequest
  by_cases h1 : definedAndBadRange (b.get "wordCount") 2 10
  · rw [if_pos h1]
    exact Or.inr rfl
  · rw [if_neg h1]
    rw [h]
    simp [definedAndBadSep, badSeparator]

/-- C2 witness: the amended theorem applied to the body whose separator is
the empty string. -/
theorem empty_separator_not_rejected_witness :
    emptySeparatorBody.get "separator" = some (JSValue.vStr "") ∧
    (validatePassphraseRequest emptySeparatorBody = VResult.accept ∨
     validatePassphraseRequest emptySeparatorBody =
       VResult.reject 400 "Word count must be a number between 2 and 10") :=
  ⟨by decide, empty_separator_not_rejected emptySeparatorBody (by decide)⟩

/-- C8. The branch of validateStrengthRequest that answers with the
password-cannot-be-empty error is unreachable: no request body produces
that response, because an empty-string password is falsy and already
rejected as required. -/
theorem strength_empty_branch_dead (b : Body) :
    decide (validateStrengthRequest b =
      VResult.reject 400 "Password cannot be empty") = false := by
  rw [decide_eq_false_iff_not]
  unfold validateStrengthRequest
  cases h : b.get "password" with
  | none => decide
  | some v =>
    cases v with
    | vStr s =>
      by_cases hs : s = ""
      · subst hs
        simp only [JSValue.truthy]
        decide
      · have hlen : ¬ s.length = 0 := by
          rw [string_length_eq_zero_iff]; exact hs
        have ht : JSValue.truthy (JSValue.vStr s) = true := by
          simp [JSValue.truthy, hs]
        simp only [ht, Bool.true_eq_false, if_false, hlen, if_neg hlen]
        by_cases hl : 1000 < s.length
        · rw [if_pos hl]
          intro hc
          exact absurd (VResult.reject.inj hc).2 (by decide)
        · rw [if_neg hl]
          intro hc
          exact VResult.noConfusion hc
    | vNum q =>
      by_cases hq : JSValue.truthy (JSValue.vNum q) = false
      · simp only [hq, if_true]
        decide
      · simp only [hq, Bool.false_eq_true, if_false]
        decide
    | vBool bb => cases bb <;> decide
    | vNull => decide
    | vObjLike => decide

/-- C9. Every validation middleware forwards the request unchanged: the
source of the four validators contains no assignment to req or req.body,
so each request transformer returns the request it received — validation
installs no defaults. -/
theorem validators_preserve_request (req : Req) :
    (validatePasswordRequestM req).2 = req ∧
    (validateBatchRequestM req).2 = req ∧
    (validateStrengthRequestM req).2 = req ∧
    (validatePassphraseRequestM req).2 = req :=
  ⟨rfl, rfl, rfl, rfl⟩

/-- C10. Omitted optional fields skip their range checks: a body without
length is never rejected with the length error, a body without count never
with the count error, a body without wordCount never with the word-count
error, and a body without separator never with the separator error. -/
theorem omitted_fields_skip_checks (b : Body) :
    (b.get "length" = none →
      validatePasswordRequest b ≠
        VResult.reject 400 "Length must be a number between 4 and 128") ∧
    (b.get "count" = none →
      validateBatchRequest b ≠
        VResult.reject 400 "Count must be a number between 1 and 20") ∧
    (b.get "wordCount" = none →
      validatePassphraseRequest b ≠
        VResult.reject 400 "Word count must be a number between 2 and 10") ∧
    (b.get "separator" = none →
      validatePassphraseRequest b ≠
        VResult.reject 400 "Separator must be a string with maximum 5 characters") := by
  refine ⟨?_, ?_, ?_, ?_⟩
  · intro h
    unfold validatePasswordRequest
    rw [h]
    simp only [definedAndBadRange, Bool.false_eq_true, if_false]
    exact passwordFlagPhase_ne_fixed b _ (Or.inl rfl)
  · intro h
    unfold validateBatchRequest
    rw [h]
    simp only [definedAndBadRange, Bool.false_eq_true, if_false]
    exact validatePasswordRequest_ne_fixed b _ (Or.inl rfl)
  · intro h
    unfold validatePassphraseRequest
    rw [h]
    simp only [definedAndBadRange, Bool.false_eq_true, if_false]
    by_cases h2 : definedAndBadSep (b.get "separator")
    · rw [if_pos h2]
      intro hc
      exact absurd (VResult.reject.inj hc).2 (by decide)
    · rw [if_neg h2]
      intro hc
      exact VResult.noConfusion hc
  · intro h
    unfold validatePassphraseRequest
    rw [h]
    simp only [definedAndBadSep]
    by_cases h1 : definedAndBadRange (b.get "wordCount") 2 10
    · rw [if_pos h1]
      intro hc
      exact absurd (VResult.reject.inj hc).2 (by decide)
    · rw [if_neg h1]
      simp only [Bool.false_eq_true, if_false]
      intro hc
      exact VResult.noConfusion hc

/-- C10 witness: the theorem applied to the empty body, all four fields
absent. -/
theorem omitted_fields_skip_checks_witness :
    emptyBody.get "length" = none ∧ emptyBody.get "count" = none ∧
    emptyBody.get "wordCount" = none ∧ emptyBody.get "separator" = none ∧
    validatePasswordRequest emptyBody ≠
      VResult.reject 400 "Length must be a number between 4 and 128" ∧
    validateBatchRequest emptyBody ≠
      VResult.reject 400 "Count must be a number between 1 and 20" ∧
    validatePassphraseRequest emptyBody ≠
      VResult.reject 400 "Word count must be a number between 2 and 10" ∧
    validatePassphraseRequest emptyBody ≠
      VResult.reject 400 "Separator must be a string with maximum 5 characters" :=
  ⟨by decide, by decide, by decide, by decide,
   (omitted_fields_skip_checks emptyBody).1 (by decide),
   (omitted_fields_skip_checks emptyBody).2.1 (by decide),
   (omitted_fields_skip_checks emptyBody).2.2.1 (by decide),
   (omitted_fields_skip_checks emptyBody).2.2.2 (by decide)⟩
